import Mathlib

/-!
Verification of `lib/promscrape/discovery/consul/api.go` from VictoriaMetrics.

The Go code is shallowly embedded: pure fragments become Lean functions;
`time.Duration` values are `Int` nanoseconds (Go `int64`) with Go's
truncated (toward-zero) division modelled by `Int.tdiv`; fallible calls
return `Except String α` where the `String` is the error message; external
collaborators (the HTTP client, `promauth.NewConfig`, `parseAgent`,
environment and filesystem access) are oracle parameters.
-/

namespace Consul

/-- One nanosecond-denominated second, `time.Second` in Go. -/
def second : Int := 1000000000

/-- `time.Minute` in Go, in nanoseconds. -/
def minute : Int := 60 * second

/-- Embedding of `strconv.ParseInt(s, 10, 64)`: optional single leading
sign, then one or more decimal digits, value within the signed 64-bit
range; any other input (empty string, stray characters, out of range)
yields `none`, matching Go returning a non-nil error. -/
def parseInt64 (s : String) : Option Int :=
  let p : Bool × List Char :=
    match s.data with
    | '+' :: rest => (false, rest)
    | '-' :: rest => (true, rest)
    | cs => (false, cs)
  if p.2.isEmpty then none
  else if p.2.all (fun c => c.isDigit) then
    let n : Nat := p.2.foldl (fun acc c => acc * 10 + (c.toNat - '0'.toNat)) 0
    let v : Int := if p.1 then -(n : Int) else (n : Int)
    if v < -(2 : Int) ^ 63 ∨ (2 : Int) ^ 63 - 1 < v then none else some v
  else none

/-- Embedding of the `getMeta` closure inside `getBlockingAPIResponse`
(api.go lines 147-168): the index-correction step applied to the
`X-Consul-Index` header. `header = none` models an absent header (Peek
returns nil, so the byte slice is empty); an empty or unparsable value
leaves the index unchanged; a parsed value `n` gives 1 when `n < 1`,
0 when `index > n`, and `n` otherwise. -/
def nextIndex (index : Int) (header : Option String) : Int :=
  let ind : String := match header with | none => "" | some s => s
  if ind = "" then index
  else
    match parseInt64 ind with
    | none => index
    | some newIndex =>
      if newIndex < 1 then 1
      else if index > newIndex then 0
      else newIndex

/-- Embedding of `maxWaitTime` (api.go lines 126-139) with the two global
inputs made explicit: `blockingClientReadTimeout` is
`discoveryutils.BlockingClientReadTimeout` and `waitTime` is the
`-promscrape.consul.waitTime` flag value, both in nanoseconds. -/
def maxWaitTime (blockingClientReadTimeout waitTime : Int) : Int :=
  let d := blockingClientReadTimeout
  let d := d - d.tdiv 8
  let d := if d > 10 * minute then 10 * minute else d
  if waitTime > second ∧ waitTime < d then waitTime else d

/-- Embedding of `int(maxWaitTime().Seconds())` (api.go line 146): the
wait duration in whole seconds. Go computes this through `float64`;
for every `int64`-range duration the float result truncated by `int(...)`
coincides with toward-zero integer division by 1e9, which is what is
used here. -/
def waitSeconds (blockingClientReadTimeout waitTime : Int) : Int :=
  (maxWaitTime blockingClientReadTimeout waitTime).tdiv second

/-- Embedding of the path construction in `getBlockingAPIResponse`
(api.go lines 144-146). `strconv.FormatInt(index, 10)` and `%d` both
print signed decimal, which `toString : Int → String` matches. -/
def requestPath (path : String) (index : Int) (blockingClientReadTimeout waitTime : Int) : String :=
  let path := path ++ "&index=" ++ toString index
  let path := path ++ "&wait=" ++ toString (waitSeconds blockingClientReadTimeout waitTime) ++ "s"
  path

/-- Embedding of `getBlockingAPIResponse` (api.go lines 144-174). The
HTTP layer is the oracle `exec`, which given the full request path
returns either a transport error or the response body together with the
optional `X-Consul-Index` header value. On transport error the Go
function returns the (unchanged) index and a wrapped error; on success
it returns the body and the corrected index. -/
def getBlockingAPIResponse
    (exec : String → Except String (String × Option String))
    (path : String) (index : Int)
    (blockingClientReadTimeout waitTime : Int) : Except String (String × Int) :=
  let p := requestPath path index blockingClientReadTimeout waitTime
  match exec p with
  | Except.error e =>
      Except.error ("cannot perform blocking Consul API request at \x22" ++ p ++ "\x22: " ++ e)
  | Except.ok (data, header) => Except.ok (data, nextIndex index header)

/-- Helper for the embedding of `strings.Contains`: does `p` start the
list `s`? -/
def charsStartWith : List Char → List Char → Bool
  | [], _ => true
  | _ :: _, [] => false
  | p :: ps, c :: cs => p == c && charsStartWith ps cs

/-- Helper for the embedding of `strings.Contains`: does `pat` occur
contiguously inside the list? -/
def charsContain (pat : List Char) : List Char → Bool
  | [] => charsStartWith pat []
  | c :: cs => charsStartWith pat (c :: cs) || charsContain pat cs

/-- Embedding of Go `strings.Contains s pat`. -/
def containsSubstr (s pat : String) : Bool := charsContain pat.data s.data

/-- Embedding of `promauth.BasicAuthConfig` (only the fields this file
sets). -/
structure BasicAuthConfig where
  username : String
  password : String

/-- Models the `promauth.Config` produced by the external collaborator
`promauth.NewConfig`: it records the basic-auth credentials and token
this file passes in (the TLS options are irrelevant to every claim and
omitted). -/
structure AuthConfig where
  basicAuth : Option BasicAuthConfig
  token : String

/-- Structured form of the self-describe agent document, as read by
`parseAgent` (`a.Config.Datacenter`). -/
structure AgentConfig where
  datacenter : String

/-- Agent document wrapper: `Agent.Config.Datacenter` in Go. -/
structure Agent where
  config : AgentConfig

/-- Models the `discoveryutils.Client` built by `newAPIConfig`: the
normalized server address, the auth configuration it was created with,
and the transport for `GetAPIResponse`, which is an oracle from request
path to response body or error. -/
structure Client where
  apiServer : String
  ac : AuthConfig
  fetch : String → Except String String

/-- Modelled from the spec: the Configuration Descriptor (`SDConfig`,
declared outside this file); only the fields `newAPIConfig` reads are
kept. `token = none` / `tagSeparator = none` model nil pointers. -/
structure SDConfig where
  server : String
  scheme : String
  datacenter : String
  token : Option String
  username : String
  password : String
  tagSeparator : Option String

/-- Process environment and filesystem as seen by `getToken`:
`tokenFileEnv` is `os.Getenv "CONSUL_HTTP_TOKEN_FILE"` (empty when
unset), `tokenEnv` is `os.Getenv "CONSUL_HTTP_TOKEN"`, and `readFile`
is `ioutil.ReadFile`. -/
structure Env where
  tokenFileEnv : String
  tokenEnv : String
  readFile : String → Except String String

/-- Oracles for the external collaborators invoked by `newAPIConfig`:
error injection for `promauth.NewConfig`, `ProxyClientConfig.NewConfig`
and `discoveryutils.NewClient`, the HTTP transport shared by the built
client, and `parseAgent`. -/
structure Collab where
  authErr : Option BasicAuthConfig → String → Option String
  proxyErr : Option String
  clientErr : String → Option String
  fetch : String → Except String String
  parseAgent : String → Except String Agent

/-- Models `newConsulWatcher client sdc dc` (api.go line 85) as a record
of its arguments; the watcher's poll loop lives outside this file. -/
structure consulWatcher where
  client : Client
  sdc : SDConfig
  datacenter : String

/-- Embedding of `apiConfig` (api.go lines 21-24). -/
structure apiConfig where
  tagSeparator : String
  consulWatcher : consulWatcher

/-- Embedding of `getToken` (api.go lines 93-107). -/
def getToken (env : Env) (token : Option String) : Except String String :=
  match token with
  | some t => Except.ok t
  | none =>
    if env.tokenFileEnv ≠ "" then
      match env.readFile env.tokenFileEnv with
      | Except.error e =>
          Except.error ("cannot read consul token file \x22" ++ env.tokenFileEnv ++
            "\x22; probably, `token` arg is missing in `consul_sd_config`? error: " ++ e)
      | Except.ok data => Except.ok data
    else Except.ok env.tokenEnv

/-- Embedding of the server-address normalization in `newAPIConfig`
(api.go lines 57-67). -/
def normalizeApiServer (server scheme : String) : String :=
  let apiServer := if server = "" then "localhost:8500" else server
  if !(containsSubstr apiServer "://") then
    let scheme := if scheme = "" then "http" else scheme
    scheme ++ "://" ++ apiServer
  else apiServer

/-- Embedding of `getDatacenter` (api.go lines 109-123), instrumented
with the list of paths requested from the client, so that "the
self-describe endpoint is queried exactly once / never" is statable. -/
def getDatacenter (client : Client) (dc : String)
    (parseAgent : String → Except String Agent) :
    Except String String × List String :=
  if dc ≠ "" then (Except.ok dc, [])
  else
    match client.fetch "/v1/agent/self" with
    | Except.error e =>
        (Except.error ("cannot query consul agent info: " ++ e), ["/v1/agent/self"])
    | Except.ok data =>
      match parseAgent data with
      | Except.error e => (Except.error e, ["/v1/agent/self"])
      | Except.ok a => (Except.ok a.config.datacenter, ["/v1/agent/self"])

/-- Embedding of the `promauth.NewConfig` call site (api.go lines
53-56): the collaborator either fails (wrapped error) or yields a config
recording the credentials passed to it. -/
def mkAuthCfg (collab : Collab) (ba : Option BasicAuthConfig) (token : String) :
    Except String AuthConfig :=
  match collab.authErr ba token with
  | some e => Except.error ("cannot parse auth config: " ++ e)
  | none => Except.ok ⟨ba, token⟩

/-- Embedding of the `sdc.ProxyClientConfig.NewConfig` call site
(api.go lines 68-71). -/
def mkProxyAC (collab : Collab) : Except String Unit :=
  match collab.proxyErr with
  | some e => Except.error ("cannot parse proxy auth config: " ++ e)
  | none => Except.ok ()

/-- Embedding of the `discoveryutils.NewClient` call site (api.go lines
72-75). -/
def mkClient (collab : Collab) (apiServer : String) (ac : AuthConfig) :
    Except String Client :=
  match collab.clientErr apiServer with
  | some e =>
      Except.error ("cannot create HTTP client for \x22" ++ apiServer ++ "\x22: " ++ e)
  | none => Except.ok ⟨apiServer, ac, collab.fetch⟩

/-- Embedding of `newAPIConfig` (api.go lines 40-91) after the token has
been resolved: basic-auth precedence, auth config, server normalization,
proxy config, client construction, tag separator, datacenter resolution,
watcher construction. -/
def buildWithToken (collab : Collab) (sdc : SDConfig) (token0 : String) :
    Except String apiConfig :=
  let ba : Option BasicAuthConfig :=
    if sdc.username.length > 0 then some ⟨sdc.username, sdc.password⟩ else none
  let token : String := if sdc.username.length > 0 then "" else token0
  match mkAuthCfg collab ba token with
  | Except.error e => Except.error e
  | Except.ok ac =>
    let apiServer := normalizeApiServer sdc.server sdc.scheme
    match mkProxyAC collab with
    | Except.error e => Except.error e
    | Except.ok _ =>
      match mkClient collab apiServer ac with
      | Except.error e => Except.error e
      | Except.ok client =>
        let tagSeparator : String :=
          match sdc.tagSeparator with
          | none => ","
          | some s => s
        match (getDatacenter client sdc.datacenter collab.parseAgent).1 with
        | Except.error e => Except.error e
        | Except.ok dc => Except.ok ⟨tagSeparator, ⟨client, sdc, dc⟩⟩

/-- Embedding of `newAPIConfig` (api.go lines 40-91): resolve the token
first (any failure aborts), then build the runtime config. -/
def newAPIConfig (collab : Collab) (env : Env) (sdc : SDConfig) :
    Except String apiConfig :=
  match getToken env sdc.token with
  | Except.error e => Except.error e
  | Except.ok token0 => buildWithToken collab sdc token0

/-- Concrete collaborator oracles for witnesses: everything succeeds,
the self-describe endpoint returns a body that parses to datacenter
`"dcX"`. -/
def collabW : Collab :=
  ⟨fun _ _ => none, none, fun _ => none,
   fun _ => Except.ok "selfbody", fun _ => Except.ok ⟨⟨"dcX"⟩⟩⟩

/-- Concrete environment for witnesses: no token env vars set, file
reads fail. -/
def envW : Env := ⟨"", "", fun _ => Except.error "nofile"⟩

/-- Concrete environment whose token file cannot be read. -/
def envErrW : Env := ⟨"/f", "", fun _ => Except.error "boom"⟩

/-- Concrete descriptor: explicit token, empty datacenter, nil tag
separator. -/
def sdcW : SDConfig := ⟨"", "", "", some "tok", "", "", none⟩

/-- Runtime config built from `sdcW` with `collabW`. -/
def cfgW : apiConfig :=
  ⟨",", ⟨⟨"http://localhost:8500", ⟨none, "tok"⟩, collabW.fetch⟩, sdcW, "dcX"⟩⟩

/-- Concrete descriptor with basic-auth credentials and an explicit
datacenter. -/
def sdcBaW : SDConfig := ⟨"", "", "dc1", some "tok", "u", "p", none⟩

/-- Runtime config built from `sdcBaW` with `collabW`. -/
def cfgBaW : apiConfig :=
  ⟨",", ⟨⟨"http://localhost:8500", ⟨some ⟨"u", "p"⟩, ""⟩, collabW.fetch⟩, sdcBaW, "dc1"⟩⟩

/-- Concrete descriptor with an explicitly empty tag separator. -/
def sdcTsW : SDConfig := ⟨"", "", "dc1", some "tok", "", "", some ""⟩

/-- Runtime config built from `sdcTsW` with `collabW`. -/
def cfgTsW : apiConfig :=
  ⟨"", ⟨⟨"http://localhost:8500", ⟨none, "tok"⟩, collabW.fetch⟩, sdcTsW, "dc1"⟩⟩

/-- Concrete descriptor with no explicit token. -/
def sdcNoTokW : SDConfig := ⟨"", "", "", none, "", "", none⟩

/-- Concrete client for witnesses. -/
def clientW : Client := ⟨"http://localhost:8500", ⟨none, "tok"⟩, collabW.fetch⟩

theorem parseInt64_ne_empty {s : String} {n : Int} (h : parseInt64 s = some n) : s ≠ "" := by
  intro hs
  subst hs
  simp [parseInt64] at h

/-- C1: for every non-negative prior local index `i` and every
registry-reported index `n` parsed from the freshness header, the next
index computed by the blocking query executor is 1 if `n < 1`; else 0 if
`i > n`; else `n`. -/
theorem blocking_index_correction (i n : Int) (s : String)
    (hi : 0 ≤ i) (hp : parseInt64 s = some n) :
    nextIndex i (some s) = if n < 1 then 1 else if i > n then 0 else n := by
  have hs : s ≠ "" := parseInt64_ne_empty hp
  simp [nextIndex, hs, hp]

/-- Witness for C1 at `i = 2`, header `"5"`. -/
theorem blocking_index_correction_witness :
    (0 : Int) ≤ 2 ∧ parseInt64 "5" = some 5 ∧
      nextIndex 2 (some "5") = if (5 : Int) < 1 then 1 else if (2 : Int) > 5 then 0 else 5 :=
  ⟨by norm_num, by decide, blocking_index_correction 2 5 "5" (by norm_num) (by decide)⟩

/-- C2 counterexample: the header value `"-5"` does not parse as a
non-negative 64-bit integer (it parses as the negative integer -5), yet
with prior index 5 the executor does not leave the index unchanged: it
resets it to 1, because `strconv.ParseInt` accepts signed values and the
code then applies the `newIndex < 1` reset rule. -/
theorem header_anomaly_counterexample :
    parseInt64 "-5" = some (-5) ∧
    (¬ ∃ n : Int, parseInt64 "-5" = some n ∧ 0 ≤ n) ∧
    nextIndex 5 (some "-5") = 1 ∧ nextIndex 5 (some "-5") ≠ 5 := by
  refine ⟨by decide, ?_, by decide, by decide⟩
  rintro ⟨n, hp, hn⟩
  have h5 : parseInt64 "-5" = some (-5) := by decide
  rw [h5] at hp
  injection hp with hp
  omega

/-- C2 (amended): for every response whose freshness header is absent,
or whose value does not parse as a signed 64-bit integer, the blocking
query executor leaves the local index unchanged and does not return an
error for it: a successful transport exchange still yields `ok` with the
body and the unchanged index. -/
theorem header_anomaly_tolerance (i C w : Int) (h : Option String)
    (path body : String)
    (exec : String → Except String (String × Option String))
    (hp : h = none ∨ ∃ s, h = some s ∧ parseInt64 s = none)
    (hexec : exec (requestPath path i C w) = Except.ok (body, h)) :
    nextIndex i h = i ∧
    getBlockingAPIResponse exec path i C w = Except.ok (body, i) := by
  have hni : nextIndex i h = i := by
    rcases hp with rfl | ⟨s, rfl, hps⟩
    · rfl
    · by_cases hs : s = ""
      · subst hs; rfl
      · simp [nextIndex, hs, hps]
  refine ⟨hni, ?_⟩
  simp [getBlockingAPIResponse, hexec, hni]

/-- Witness for C2 (amended) at index 7 and unparsable header `"xx"`. -/
theorem header_anomaly_tolerance_witness :
    nextIndex 7 (some "xx") = 7 ∧
    getBlockingAPIResponse (fun _ => Except.ok ("body", some "xx")) "/p?q" 7
        (10 * second) 0 = Except.ok ("body", 7) :=
  header_anomaly_tolerance 7 (10 * second) 0 (some "xx") "/p?q" "body"
    (fun _ => Except.ok ("body", some "xx"))
    (Or.inr ⟨"xx", rfl, by decide⟩) rfl

/-- C3: for every global read-timeout ceiling `C` and override value
`w`, the computed wait duration equals `w` when `w` is strictly greater
than one second and strictly less than `min (C - C/8) (10 minutes)`
(`/` truncating toward zero), and equals `min (C - C/8) (10 minutes)`
otherwise. -/
theorem wait_time_calculation (C w : Int) :
    maxWaitTime C w =
      if second < w ∧ w < min (C - C.tdiv 8) (10 * minute) then w
      else min (C - C.tdiv 8) (10 * minute) := by
  simp only [maxWaitTime, gt_iff_lt]
  rcases le_or_lt (C - Int.tdiv C 8) (10 * minute) with h | h
  · rw [if_neg (not_lt.mpr h), min_eq_left h]
  · rw [if_pos h, min_eq_right h.le]

/-- C9: the blocking query executor issues its request at the given path
with an `index` query parameter holding the decimal index and a `wait`
query parameter holding the wait duration in whole seconds followed by
`s`; the outcome depends on the HTTP oracle only at that composed path. -/
theorem blocking_request_shape (path : String) (i C w : Int) :
    requestPath path i C w =
      path ++ "&index=" ++ toString i ++ "&wait=" ++
        toString ((maxWaitTime C w).tdiv second) ++ "s" ∧
    ∀ exec exec' : String → Except String (String × Option String),
      exec (requestPath path i C w) = exec' (requestPath path i C w) →
      getBlockingAPIResponse exec path i C w = getBlockingAPIResponse exec' path i C w := by
  constructor
  · rfl
  · intro exec exec' h
    simp only [getBlockingAPIResponse, h]

/-- Witness for C9 at path `"/v1/x?y"`, index 0, ceiling 10 s. -/
theorem blocking_request_shape_witness :
    requestPath "/v1/x?y" 0 (10 * second) 0 =
      "/v1/x?y" ++ "&index=" ++ toString (0 : Int) ++ "&wait=" ++
        toString ((maxWaitTime (10 * second) 0).tdiv second) ++ "s" ∧
    getBlockingAPIResponse (fun _ => Except.ok ("", none)) "/v1/x?y" 0 (10 * second) 0 =
      getBlockingAPIResponse (fun _ => Except.ok ("", none)) "/v1/x?y" 0 (10 * second) 0 :=
  ⟨(blocking_request_shape "/v1/x?y" 0 (10 * second) 0).1,
   (blocking_request_shape "/v1/x?y" 0 (10 * second) 0).2 _ _ rfl⟩

theorem mkAuthCfg_ok {collab : Collab} {ba : Option BasicAuthConfig} {token : String}
    {ac : AuthConfig} (h : mkAuthCfg collab ba token = Except.ok ac) : ac = ⟨ba, token⟩ := by
  unfold mkAuthCfg at h
  cases hh : collab.authErr ba token with
  | some e => rw [hh] at h; simp at h
  | none => rw [hh] at h; injection h with h; exact h.symm

theorem mkClient_ok {collab : Collab} {apiServer : String} {ac : AuthConfig}
    {client : Client} (h : mkClient collab apiServer ac = Except.ok client) :
    client = ⟨apiServer, ac, collab.fetch⟩ := by
  unfold mkClient at h
  cases hh : collab.clientErr apiServer with
  | some e => rw [hh] at h; simp at h
  | none => rw [hh] at h; injection h with h; exact h.symm

theorem newAPIConfig_ok {collab : Collab} {env : Env} {sdc : SDConfig} {cfg : apiConfig}
    (h : newAPIConfig collab env sdc = Except.ok cfg) :
    ∃ token0, getToken env sdc.token = Except.ok token0 ∧
      buildWithToken collab sdc token0 = Except.ok cfg := by
  unfold newAPIConfig at h
  cases hgt : getToken env sdc.token with
  | error e => rw [hgt] at h; simp at h
  | ok token0 => rw [hgt] at h; exact ⟨token0, rfl, h⟩

theorem buildWithToken_ok_spec {collab : Collab} {sdc : SDConfig} {token0 : String}
    {cfg : apiConfig} (h : buildWithToken collab sdc token0 = Except.ok cfg) :
    cfg.tagSeparator = (match sdc.tagSeparator with | none => "," | some s => s) ∧
    cfg.consulWatcher.client =
      ⟨normalizeApiServer sdc.server sdc.scheme,
       ⟨(if sdc.username.length > 0 then some ⟨sdc.username, sdc.password⟩ else none),
        (if sdc.username.length > 0 then "" else token0)⟩,
       collab.fetch⟩ ∧
    (getDatacenter cfg.consulWatcher.client sdc.datacenter collab.parseAgent).1 =
      Except.ok cfg.consulWatcher.datacenter := by
  simp only [buildWithToken] at h
  split at h
  · exact absurd h (by simp)
  · next ac hac =>
    split at h
    · exact absurd h (by simp)
    · next u hproxy =>
      split at h
      · exact absurd h (by simp)
      · next client hclient =>
        split at h
        · exact absurd h (by simp)
        · next dc hdc =>
          injection h with h
          subst h
          rw [mkClient_ok hclient, mkAuthCfg_ok hac] at hdc ⊢
          exact ⟨rfl, rfl, hdc⟩

/-- C4: an explicit token in the configuration descriptor (including the
explicitly empty string) is returned by the credential resolver exactly
and without error, whatever the token-file and token-value environment
variables and the filesystem contents are. -/
theorem token_explicit_wins (env : Env) (t : String) :
    getToken env (some t) = Except.ok t := rfl

/-- C5: with no explicit token and a token-file environment variable
naming an unreadable file, the credential resolver fails with an error
message that contains the file path, and `newAPIConfig` aborts with that
error, producing no runtime config. -/
theorem token_file_failure_fatal (collab : Collab) (env : Env) (sdc : SDConfig) (e : String)
    (h0 : sdc.token = none) (h1 : env.tokenFileEnv ≠ "")
    (h2 : env.readFile env.tokenFileEnv = Except.error e) :
    getToken env sdc.token =
      Except.error ("cannot read consul token file \x22" ++ env.tokenFileEnv ++
        "\x22; probably, `token` arg is missing in `consul_sd_config`? error: " ++ e) ∧
    (∃ pre post : String,
      ("cannot read consul token file \x22" ++ env.tokenFileEnv ++
        "\x22; probably, `token` arg is missing in `consul_sd_config`? error: " ++ e) =
        pre ++ env.tokenFileEnv ++ post) ∧
    newAPIConfig collab env sdc =
      Except.error ("cannot read consul token file \x22" ++ env.tokenFileEnv ++
        "\x22; probably, `token` arg is missing in `consul_sd_config`? error: " ++ e) := by
  have hgt : getToken env sdc.token =
      Except.error ("cannot read consul token file \x22" ++ env.tokenFileEnv ++
        "\x22; probably, `token` arg is missing in `consul_sd_config`? error: " ++ e) := by
    rw [h0]
    simp only [getToken]
    rw [if_pos h1, h2]
  refine ⟨hgt, ⟨"cannot read consul token file \x22",
    "\x22; probably, `token` arg is missing in `consul_sd_config`? error: " ++ e,
    by rw [String.append_assoc]⟩, ?_⟩
  simp only [newAPIConfig, hgt]

/-- Witness for C5: descriptor without token, token file `"/f"`
unreadable. -/
theorem token_file_failure_fatal_witness :
    getToken envErrW sdcNoTokW.token =
      Except.error ("cannot read consul token file \x22" ++ envErrW.tokenFileEnv ++
        "\x22; probably, `token` arg is missing in `consul_sd_config`? error: " ++ "boom") ∧
    (∃ pre post : String,
      ("cannot read consul token file \x22" ++ envErrW.tokenFileEnv ++
        "\x22; probably, `token` arg is missing in `consul_sd_config`? error: " ++ "boom") =
        pre ++ envErrW.tokenFileEnv ++ post) ∧
    newAPIConfig collabW envErrW sdcNoTokW =
      Except.error ("cannot read consul token file \x22" ++ envErrW.tokenFileEnv ++
        "\x22; probably, `token` arg is missing in `consul_sd_config`? error: " ++ "boom") :=
  token_file_failure_fatal collabW envErrW sdcNoTokW "boom" rfl (by decide) rfl

/-- C6: when the descriptor carries basic-auth credentials (a non-empty
username), the auth configuration the builder installs in the client is
basic auth with exactly those credentials and an empty token, and the
build result does not depend on the resolved token value at all. -/
theorem basic_auth_precedence (collab : Collab) (env : Env) (sdc : SDConfig)
    (h : sdc.username.length > 0) :
    (∀ cfg, newAPIConfig collab env sdc = Except.ok cfg →
       cfg.consulWatcher.client.ac = AuthConfig.mk (some ⟨sdc.username, sdc.password⟩) "") ∧
    (∀ t t', buildWithToken collab sdc t = buildWithToken collab sdc t') := by
  constructor
  · intro cfg hcfg
    obtain ⟨t0, _, hb⟩ := newAPIConfig_ok hcfg
    have := (buildWithToken_ok_spec hb).2.1
    rw [this]
    simp only [if_pos h]
  · intro t t'
    simp only [buildWithToken, if_pos h]

/-- Witness for C6 at username `"u"`, password `"p"`, explicit token
`"tok"`. -/
theorem basic_auth_precedence_witness :
    cfgBaW.consulWatcher.client.ac = AuthConfig.mk (some ⟨"u", "p"⟩) "" ∧
    buildWithToken collabW sdcBaW "t1" = buildWithToken collabW sdcBaW "t2" :=
  ⟨(basic_auth_precedence collabW envW sdcBaW (by decide)).1 cfgBaW rfl,
   (basic_auth_precedence collabW envW sdcBaW (by decide)).2 "t1" "t2"⟩

/-- C7 counterexample: with an empty server address and descriptor
scheme `"https"`, the normalized address is `"https://localhost:8500"`,
not the claimed unconditional default `"http://localhost:8500"`. -/
theorem server_normalization_counterexample :
    normalizeApiServer "" "https" = "https://localhost:8500" ∧
    ("https://localhost:8500" : String) ≠ "http://localhost:8500" := by
  exact ⟨rfl, by decide⟩

/-- C7 (amended): an empty server address first becomes
`"localhost:8500"` and then, like any address without `"://"`, gets the
descriptor's scheme (or `"http"` when that is empty) prepended; an
address containing `"://"` is left unchanged. -/
theorem server_normalization (server scheme : String) :
    (server = "" →
       normalizeApiServer server scheme =
         (if scheme = "" then "http" else scheme) ++ "://localhost:8500") ∧
    (server ≠ "" → containsSubstr server "://" = false →
       normalizeApiServer server scheme =
         (if scheme = "" then "http" else scheme) ++ "://" ++ server) ∧
    (server ≠ "" → containsSubstr server "://" = true →
       normalizeApiServer server scheme = server) := by
  refine ⟨?_, ?_, ?_⟩
  · intro hs
    subst hs
    have hc : containsSubstr "localhost:8500" "://" = false := by decide
    simp only [normalizeApiServer, if_pos rfl, hc, Bool.not_false, if_pos]
    rw [String.append_assoc]
    congr 1
  · intro hs hc
    simp only [normalizeApiServer, if_neg hs, hc, Bool.not_false, if_pos]
  · intro hs hc
    simp only [normalizeApiServer, if_neg hs, hc, Bool.not_true]
    rfl

/-- Witness for C7 (amended) covering all three branches. -/
theorem server_normalization_witness :
    normalizeApiServer "" "https" =
      (if ("https" : String) = "" then "http" else "https") ++ "://localhost:8500" ∧
    normalizeApiServer "localhost:8500" "" =
      (if ("" : String) = "" then "http" else "") ++ "://" ++ "localhost:8500" ∧
    normalizeApiServer "https://consul.internal" "" = "https://consul.internal" :=
  ⟨(server_normalization "" "https").1 rfl,
   (server_normalization "localhost:8500" "").2.1 (by decide) (by decide),
   (server_normalization "https://consul.internal" "").2.2 (by decide) (by decide)⟩

/-- C8: a non-empty explicit datacenter is returned as-is with no
request to the self-describe endpoint; an empty datacenter issues
exactly one request to `"/v1/agent/self"`; and a successful build with
an empty datacenter implies that request and the parse of its response
both succeeded (contrapositively, their failure aborts the build). -/
theorem datacenter_resolution (client : Client)
    (pa : String → Except String Agent) (dc : String)
    (collab : Collab) (env : Env) (sdc : SDConfig) (cfg : apiConfig) :
    (dc ≠ "" → getDatacenter client dc pa = (Except.ok dc, [])) ∧
    (dc = "" → (getDatacenter client dc pa).2 = ["/v1/agent/self"]) ∧
    (sdc.datacenter = "" → newAPIConfig collab env sdc = Except.ok cfg →
       ∃ data a, collab.fetch "/v1/agent/self" = Except.ok data ∧
         collab.parseAgent data = Except.ok a ∧
         cfg.consulWatcher.datacenter = a.config.datacenter) := by
  refine ⟨?_, ?_, ?_⟩
  · intro h
    simp [getDatacenter, h]
  · intro h
    subst h
    cases hf : client.fetch "/v1/agent/self" with
    | error e => simp [getDatacenter, hf]
    | ok data =>
      cases hpa : pa data with
      | error e => simp [getDatacenter, hf, hpa]
      | ok a => simp [getDatacenter, hf, hpa]
  · intro hdc hok
    obtain ⟨t0, _, hb⟩ := newAPIConfig_ok hok
    obtain ⟨_, hcl, hgd⟩ := buildWithToken_ok_spec hb
    rw [hdc, hcl] at hgd
    cases hf : collab.fetch "/v1/agent/self" with
    | error e => simp [getDatacenter, hf] at hgd
    | ok data =>
      cases hpa : collab.parseAgent data with
      | error e => simp [getDatacenter, hf, hpa] at hgd
      | ok a =>
        refine ⟨data, a, rfl, hpa, ?_⟩
        simp [getDatacenter, hf, hpa] at hgd
        exact hgd.symm

/-- Witness for C8: explicit `"dc1"` bypasses the query; empty
datacenter queries `"/v1/agent/self"` once; the successful build of
`sdcW` (empty datacenter) exhibits the successful fetch and parse. -/
theorem datacenter_resolution_witness :
    getDatacenter clientW "dc1" collabW.parseAgent = (Except.ok "dc1", []) ∧
    (getDatacenter clientW "" collabW.parseAgent).2 = ["/v1/agent/self"] ∧
    (∃ data a, collabW.fetch "/v1/agent/self" = Except.ok data ∧
       collabW.parseAgent data = Except.ok a ∧
       cfgW.consulWatcher.datacenter = a.config.datacenter) :=
  ⟨(datacenter_resolution clientW collabW.parseAgent "dc1" collabW envW sdcW cfgW).1
      (by decide),
   (datacenter_resolution clientW collabW.parseAgent "" collabW envW sdcW cfgW).2.1 rfl,
   (datacenter_resolution clientW collabW.parseAgent "" collabW envW sdcW cfgW).2.2
      rfl rfl⟩

/-- C10: a built runtime config uses `","` as tag separator when the
descriptor's tag-separator field is nil, and the field's value verbatim
(including the empty string) when it is set. -/
theorem tag_separator_default (collab : Collab) (env : Env) (sdc : SDConfig)
    (cfg : apiConfig) (h : newAPIConfig collab env sdc = Except.ok cfg) :
    cfg.tagSeparator = (match sdc.tagSeparator with | none => "," | some s => s) := by
  obtain ⟨t0, _, hb⟩ := newAPIConfig_ok h
  exact (buildWithToken_ok_spec hb).1

/-- Witness for C10: nil tag separator gives `","`; an explicitly empty
one gives `""`. -/
theorem tag_separator_default_witness :
    cfgW.tagSeparator = (match sdcW.tagSeparator with | none => "," | some s => s) ∧
    cfgTsW.tagSeparator = (match sdcTsW.tagSeparator with | none => "," | some s => s) :=
  ⟨tag_separator_default collabW envW sdcW cfgW rfl,
   tag_separator_default collabW envW sdcTsW cfgTsW rfl⟩

end Consul
